import Mathlib

set_option maxHeartbeats 1000000

namespace Skyportal

/-- Python exception kinds that the embedded handler code can raise. -/
inductive PyExn where
  | attributeError
  | typeError
  | nameError
  | valueError
  deriving DecidableEq, Repr

/-- The characters of Python `string.punctuation` with the hyphen (45) and the
at sign (64) removed, mirroring
`string.punctuation.replace("-", "").replace("@", "")` in `users_mentioned`
(comment.py line 29). -/
def pyPunct : List Char :=
  [33, 34, 35, 36, 37, 38, 39, 40, 41, 42, 43, 44, 46, 47, 58, 59,
   60, 61, 62, 63, 91, 92, 93, 94, 95, 96, 123, 124, 125, 126].map Char.ofNat

/-- Python whitespace characters recognized by `str.split()` with no argument. -/
def isPySpace (c : Char) : Bool :=
  [32, 9, 10, 11, 12, 13].contains c.toNat

/-- `text.replace(",", " ")` for a single-character pattern. -/
def commaToSpace (t : List Char) : List Char :=
  t.map fun c => if c = ',' then ' ' else c

/-- Python `str.split()` with no argument: split on whitespace runs,
discarding empty pieces. -/
def pySplitWs (t : List Char) : List (List Char) :=
  (List.splitOnP isPySpace t).filter (fun w => w ≠ [])

/-- Python `word.strip(chars)`: remove the leading and trailing characters of
`t` that belong to `cs`. -/
def pyStrip (cs : List Char) (t : List Char) : List Char :=
  ((t.dropWhile (fun c => cs.contains c)).reverse.dropWhile
    (fun c => cs.contains c)).reverse

/-- The at sign character. -/
def atSign : Char := Char.ofNat 64

/-- Candidate usernames extracted by `users_mentioned` (comment.py lines
28-34): replace commas with spaces, split on whitespace, strip the
leading/trailing punctuation of each token except hyphen and the at sign, keep
the tokens that start with the at sign, and apply Python
`word.replace("@", "")`, which removes every at sign of the token. -/
def usersMentionedCandidates (text : List Char) : List (List Char) :=
  (pySplitWs (commaToSpace text)).filterMap fun w0 =>
    let w := pyStrip pyPunct w0
    match w with
    | c :: _ => if c = atSign then some (w.filter (fun d => d ≠ atSign)) else none
    | [] => none

/-- Modelled from the spec claim wording for the mention helper: the same
tokenization and stripping, but removing only the leading at sign of each kept
token, so that an inner at sign would be preserved. -/
def specMentionCandidates (text : List Char) : List (List Char) :=
  (pySplitWs (commaToSpace text)).filterMap fun w0 =>
    let w := pyStrip pyPunct w0
    match w with
    | c :: rest => if c = atSign then some rest else none
    | [] => none

/-- A row of the candidates table, as far as the statistics endpoint reads it. -/
structure CandidateRec where
  objId : String
  createdAt : Nat
  deriving DecidableEq, Repr

/-- A row of the cronjobruns table. -/
structure CronRun where
  script : String
  createdAt : Nat
  exitStatus : Int
  output : String
  deriving DecidableEq, Repr

/-- The database state read by `StatsHandler.get` (db_stats.py): each table is
a list of rows, plus the `pg_class.reltuples` cardinality estimate that the
handler reads for the photometry table instead of counting its rows. -/
structure StatsDB where
  photometryEstimate : Int
  photometry : List Unit
  candidates : List CandidateRec
  sources : List String
  objs : List String
  spectra : List Unit
  groups : List Unit
  users : List Unit
  tokens : List Unit
  cronRuns : List CronRun
  deriving DecidableEq, Repr

/-- `created_at` of the first row sorted by ascending `created_at`
(`order_by(created_at).first()`). -/
def minCreatedAt (l : List CandidateRec) : Option Nat :=
  l.foldl
    (fun acc c =>
      match acc with
      | none => some c.createdAt
      | some m => some (min m c.createdAt))
    none

/-- `created_at` of the first row sorted by descending `created_at`. -/
def maxCreatedAt (l : List CandidateRec) : Option Nat :=
  l.foldl
    (fun acc c =>
      match acc with
      | none => some c.createdAt
      | some m => some (max m c.createdAt))
    none

/-- The latest run of one cron script
(`order_by(created_at.desc()).first()` restricted to that script). -/
def latestRun (l : List CronRun) (s : String) : Option CronRun :=
  (l.filter (fun r => r.script = s)).foldl
    (fun acc r =>
      match acc with
      | none => some r
      | some m => some (if m.createdAt < r.createdAt then r else m))
    none

/-- The distinct cron scripts in first-appearance order
(`select(CronJobRun.script).distinct()`). -/
def distinctScripts (l : List CronRun) : List String :=
  (l.map (fun r => r.script)).dedup

/-- The payload assembled by `StatsHandler.get`. -/
structure StatsReport where
  numPhotometryApprox : Int
  numCandidates : Nat
  numSources : Nat
  numObjs : Nat
  numSpectra : Nat
  numGroups : Nat
  numUsers : Nat
  numTokens : Nat
  oldestCandidate : Option Nat
  newestCandidate : Option Nat
  oldestUnsavedCandidate : Option Nat
  cronSummaries : List (String × String)
  deriving DecidableEq, Repr

/-- One cron summary line:
`f"(script) ran at (created_at) with exit status (exit_status)"`. -/
def cronSummary (r : CronRun) : String :=
  r.script ++ " ran at " ++ toString r.createdAt ++ " with exit status "
    ++ toString r.exitStatus

/-- Shallow embedding of `StatsHandler.get` (db_stats.py lines 75-146):
the photometry figure comes from the stored `reltuples` estimate, every other
count is an exact row count, the three candidate timestamps come from
first-row queries, and each distinct cron script is summarized by its most
recent run. -/
def statsGet (db : StatsDB) : StatsReport :=
  { numPhotometryApprox := db.photometryEstimate
    numCandidates := db.candidates.length
    numSources := db.sources.length
    numObjs := db.objs.length
    numSpectra := db.spectra.length
    numGroups := db.groups.length
    numUsers := db.users.length
    numTokens := db.tokens.length
    oldestCandidate := minCreatedAt db.candidates
    newestCandidate := maxCreatedAt db.candidates
    oldestUnsavedCandidate :=
      minCreatedAt (db.candidates.filter (fun c => !(db.sources.contains c.objId)))
    cronSummaries :=
      (distinctScripts db.cronRuns).map fun s =>
        match latestRun db.cronRuns s with
        | some r => (cronSummary r, r.output)
        | none => ("", "") }

/-- A taxonomy hierarchy node: a dict that may carry a `class` label and may
carry a `subclasses` list of such nodes (classification.py lines 222-228
distinguish a missing key from a present one). -/
inductive Hierarchy where
  | node (classLabel : Option String) (subclasses : Option (List Hierarchy))

mutual

/-- The generator `allowed_classes` of `ClassificationHandler.post`
(classification.py lines 222-228), as the list of labels it yields: the
current node label when the `class` key is present, then the labels of each
subclass in order. -/
def allowedClasses : Hierarchy → List String
  | .node cl none => cl.toList
  | .node cl (some subs) => cl.toList ++ allowedClassesList subs

/-- `allowed_classes` applied to each item of a `subclasses` list. -/
def allowedClassesList : List Hierarchy → List String
  | [] => []
  | h :: t => allowedClasses h ++ allowedClassesList t

end

/-- Modelled from the spec claim wording: the label occurs as a `class` entry
somewhere in the `class`/`subclasses` tree, at any depth. -/
inductive OccursIn (label : String) : Hierarchy → Prop where
  | here (sub : Option (List Hierarchy)) : OccursIn label (.node (some label) sub)
  | there (cl : Option String) (sub : List Hierarchy) (h : Hierarchy)
      (hmem : h ∈ sub) (hocc : OccursIn label h) :
      OccursIn label (.node cl (some sub))

/-- `Group.select(current_user).where(Group.id.in_(group_ids))`: the groups
accessible to the caller whose id was requested. -/
def resolveGroupIds (accessible requested : List Nat) : List Nat :=
  accessible.filter (fun g => requested.contains g)

/-- Python set equality `set(a) == set(b)` on id lists. -/
def sameIdSet (a b : List Nat) : Bool :=
  a.all (fun x => b.contains x) && b.all (fun x => a.contains x)

/-- Real-time push messages emitted by the handlers. -/
inductive Event where
  | refreshSource (objKey : String)
  | refreshCandidate (objKey : String)
  | refreshGcnEvent (dateobs : String)
  | refreshSourceSpectra (objKey : String)
  | refreshSourceGcn (objKey : String)
  | refreshShift (objKey : String)
  | refreshShifts (shiftId : Option Nat)
  | fetchNotifications (username : String)
  deriving DecidableEq, Repr

def cannotFindTaxonomyMsg : String := "Cannot find a taxonomy with that ID"

def classNotAllowedMsg : String :=
  "That classification is not in the allowed classes for the chosen taxonomy"

def probabilityRangeMsg : String :=
  "That probability is outside the allowable range"

def cannotFindGroupsMsg : String := "Cannot find one or more groups with IDs"

/-- A row of the classifications table. -/
structure ClsRec where
  id : Nat
  classification : String
  objId : String
  probability : Option Rat
  taxonomyId : Nat
  authorName : String
  groupIds : List Nat
  deriving DecidableEq, Repr

/-- The database state seen by the classification handlers, restricted to the
view of the acting user: taxonomies as (id, hierarchy) pairs, the stored
classifications, the ids of the groups accessible to the caller, and the
objects as (obj id, internal key) pairs. -/
structure ClsState where
  taxonomies : List (Nat × Hierarchy)
  classifications : List ClsRec
  accessibleGroupIds : List Nat
  objs : List (String × String)
  currentUsername : String
  nextClassificationId : Nat

/-- `Taxonomy.select(...).where(Taxonomy.id == taxonomy_id)` then `.first()`. -/
def lookupTaxonomy (st : ClsState) (tid : Nat) : Option Hierarchy :=
  (st.taxonomies.find? (fun p => p.1 = tid)).map (fun p => p.2)

/-- Resolve an object id to its `internal_key`; `none` models a dangling
`obj` relationship whose attribute access raises. -/
def lookupObjKey (objs : List (String × String)) (oid : String) : Option String :=
  (objs.find? (fun p => p.1 = oid)).map (fun p => p.2)

/-- `if probability < 0 or probability > 1` guarded by `is not None`
(classification.py lines 237-243). -/
def probOutOfRange : Option Rat → Bool
  | none => false
  | some p => decide (p < 0 ∨ 1 < p)

/-- The body of a `POST /classifications` request. -/
structure ClsPostRequest where
  objId : String
  classification : String
  taxonomyId : Nat
  probability : Option Rat
  groupIds : Option (List Nat)
  deriving DecidableEq, Repr

inductive ClsPostOutcome where
  | err (msg : String)
  | exn (e : PyExn)
  | ok (created : ClsRec) (events : List Event)
  deriving DecidableEq, Repr

/-- Shallow embedding of `ClassificationHandler.post` (classification.py lines
204-275): default the group ids to the accessible groups when the key is
absent, look up the taxonomy, check the label against `allowed_classes`,
range-check the probability, resolve the requested groups and require exact
id-set equality, then persist and emit the two refresh events. Errors return
the state unchanged; a missing object makes the post-commit
`classification.obj.internal_key` access raise. -/
def classificationPost (st : ClsState) (req : ClsPostRequest) :
    ClsPostOutcome × ClsState :=
  let groupIds := req.groupIds.getD st.accessibleGroupIds
  match lookupTaxonomy st req.taxonomyId with
  | none => (.err cannotFindTaxonomyMsg, st)
  | some hierarchy =>
    if !(allowedClasses hierarchy).contains req.classification then
      (.err classNotAllowedMsg, st)
    else if probOutOfRange req.probability then
      (.err probabilityRangeMsg, st)
    else
      let groups := resolveGroupIds st.accessibleGroupIds groupIds
      if !(sameIdSet groups groupIds) then
        (.err cannotFindGroupsMsg, st)
      else
        let cls : ClsRec :=
          { id := st.nextClassificationId
            classification := req.classification
            objId := req.objId
            probability := req.probability
            taxonomyId := req.taxonomyId
            authorName := st.currentUsername
            groupIds := groups }
        let st2 := { st with
          classifications := st.classifications ++ [cls]
          nextClassificationId := st.nextClassificationId + 1 }
        match lookupObjKey st.objs req.objId with
        | none => (.exn .attributeError, st2)
        | some key => (.ok cls [.refreshSource key, .refreshCandidate key], st2)

/-- A taxonomy hierarchy with the label C at depth two. -/
def hier0 : Hierarchy :=
  .node (some "Root") (some [.node (some "A") none,
    .node (some "B") (some [.node (some "C") none])])

def clsState0 : ClsState :=
  { taxonomies := [(1, hier0)]
    classifications := []
    accessibleGroupIds := [1]
    objs := [("obj1", "key1")]
    currentUsername := "alice"
    nextClassificationId := 10 }

def clsReqZ : ClsPostRequest :=
  { objId := "obj1", classification := "Z", taxonomyId := 1,
    probability := none, groupIds := none }

def clsReqC : ClsPostRequest :=
  { objId := "obj1", classification := "C", taxonomyId := 1,
    probability := none, groupIds := none }

/-- A Python value as it flows out of `get_query_argument`: the supplied query
argument is a string, a missing one yields the handler-provided default. -/
inductive PyVal where
  | pyInt (n : Int)
  | pyStr (s : String)
  deriving DecidableEq, Repr

/-- Python subtraction `v - m` for an integer `m`: defined on ints, a
`TypeError` on strings. -/
def pySubInt : PyVal → Int → Except PyExn Int
  | .pyInt n, m => .ok (n - m)
  | .pyStr _, _ => .error .typeError

/-- Fold decimal digits into a number, `none` on a non-digit. -/
def digitsToNat (ds : List Char) : Option Nat :=
  ds.foldl
    (fun acc c =>
      match acc with
      | none => none
      | some n => if c.isDigit then some (n * 10 + (c.toNat - 48)) else none)
    (some 0)

/-- Python `int(s)`: parse a decimal integer with optional sign, raising
`ValueError` otherwise. -/
def pyToInt (s : String) : Except PyExn Int :=
  match s.toList with
  | [] => .error .valueError
  | c :: rest =>
    if c = '-' then
      match rest with
      | [] => .error .valueError
      | _ :: _ =>
        match digitsToNat rest with
        | some n => .ok (-(n : Int))
        | none => .error .valueError
    else
      match digitsToNat (c :: rest) with
      | some n => .ok (n : Int)
      | none => .error .valueError

/-- Shallow embedding of the collection branch of `ClassificationHandler.get`
(classification.py lines 96-144): `pageNumber` is taken raw from the query
(string when supplied, the integer 1 when absent), `numPerPage` is parsed with
`int` and clamped with `min(.., 500)` (default 100), the total is counted
before pagination, and the page is `offset((page_number - 1) * n_per_page)`
then `limit(n_per_page)` over the already visibility- and date-filtered
rows. -/
def classificationsGet (rows : List ClsRec)
    (pageNumberArg numPerPageArg : Option String) :
    Except PyExn (List ClsRec × Nat) :=
  let pageNumber : PyVal :=
    match pageNumberArg with
    | some s => .pyStr s
    | none => .pyInt 1
  match (match numPerPageArg with
         | some s => pyToInt s
         | none => .ok (100 : Int)) with
  | .error e => .error e
  | .ok nRaw =>
    let nPerPage := min nRaw 500
    let total := rows.length
    match pySubInt pageNumber 1 with
    | .error e => .error e
    | .ok offIdx =>
      .ok ((rows.drop (offIdx * nPerPage).toNat).take nPerPage.toNat, total)

/-- The number of rows of a collection response, zero on failure. -/
def resultRowCount : Except PyExn (List ClsRec × Nat) → Nat
  | .ok (rows, _) => rows.length
  | .error _ => 0

/-- The four comment resource kinds of the polymorphic comment API. -/
inductive ResourceKind where
  | sources
  | spectra
  | gcnEvent
  | shift
  deriving DecidableEq, Repr

/-- Python `str.lower()` on ASCII text. -/
def pyLower (s : String) : String :=
  String.mk (s.toList.map Char.toLower)

/-- The case-insensitive dispatch on `associated_resource_type` shared by the
comment handlers. -/
def parseResourceType (s : String) : Option ResourceKind :=
  if pyLower s = "sources" then some .sources
  else if pyLower s = "spectra" then some .spectra
  else if pyLower s = "gcn_event" then some .gcnEvent
  else if pyLower s = "shift" then some .shift
  else none

def noAccessibleCommentsMsg : String := "Could not find any accessible comments."

def resourceMismatchMsg : String :=
  "Comment resource ID does not match resource ID given in path"

def malformedAttachmentMsg : String := "Malformed comment attachment"

def attachmentNullMsg : String :=
  "This update leaves one of attachment name or attachment bytes null"

def noAttachmentMsg : String := "Comment has no attachment"

def unsupportedResourceMsg : String := "Unsupported associated_resource_type"

def noAccessibleSpectrumMsg : String :=
  "Could not find any accessible spectra with that ID"

def noAccessibleGcnMsg : String :=
  "Could not find any accessible gcn events with that ID"

/-- A row of one of the four comment tables; `kind` selects the variant and
thereby which foreign key is meaningful (`objId` additionally carries the
owning object of a spectrum comment). -/
structure CommentRec where
  id : Nat
  kind : ResourceKind
  objId : String
  spectrumId : Nat
  gcnId : Nat
  shiftId : Nat
  text : String
  attachment_name : Option String
  attachment_bytes : Option String
  bot : Bool
  authorName : String
  groupIds : List Nat
  deriving DecidableEq, Repr

/-- `str(...)` of the own parent-resource foreign key of the comment variant,
as computed before the path cross-check in every single-comment handler. -/
def commentResourceIdStr (c : CommentRec) : String :=
  match c.kind with
  | .sources => c.objId
  | .spectra => toString c.spectrumId
  | .gcnEvent => toString c.gcnId
  | .shift => toString c.shiftId

/-- Modelled from the spec: which comment variants expose an `obj`
relationship. The comment model classes are not part of this excerpt; spec
section 3 states that the comment-on-object and comment-on-spectrum variants
resolve to an owning Object while the comment-on-shift variant does not, and
does not list the GCN variant as resolving to an Object either. Python
`hasattr(c, "obj")` is therefore true exactly for the first two kinds. -/
def hasObjAttr : ResourceKind → Bool
  | .sources => true
  | .spectra => true
  | .gcnEvent => false
  | .shift => false

/-- The database state seen by the comment handlers, already restricted to
the acting user: the comment rows together with the per-mode accessibility id
lists produced by the mode-filtered selects, the caller-accessible group ids,
and the referenced resources. -/
structure CommentState where
  comments : List CommentRec
  readableIds : List Nat
  updatableIds : List Nat
  deletableIds : List Nat
  accessibleGroupIds : List Nat
  objs : List (String × String)
  spectra : List (Nat × String)
  gcnEvents : List (Nat × String)
  shiftIds : List Nat
  users : List (String × Bool)
  notifications : List (String × String)
  nextCommentId : Nat
  deriving DecidableEq, Repr

/-- `Variant.select(user, mode).where(Variant.id == comment_id)` then
`.first()`: the stored comment of the dispatched kind with that id, provided
the accessibility filter of that mode keeps it. -/
def findComment (st : CommentState) (k : ResourceKind) (cid : Nat)
    (acl : List Nat) : Option CommentRec :=
  st.comments.find? fun c => c.kind = k && c.id = cid && acl.contains c.id

/-- `c.obj.internal_key`: an `AttributeError` on a variant without the `obj`
relationship, or when the related object row is missing. -/
def commentObjKey (st : CommentState) (c : CommentRec) : Except PyExn String :=
  if hasObjAttr c.kind then
    match lookupObjKey st.objs c.objId with
    | some key => .ok key
    | none => .error .attributeError
  else .error .attributeError

/-- The suffix following the first occurrence of the literal `base64,`,
`none` when it does not occur. -/
def findBase64Marker : List Char → Option (List Char)
  | [] => none
  | c :: rest =>
    if (c :: rest).take 7 = "base64,".toList then some ((c :: rest).drop 7)
    else findBase64Marker rest

/-- Iterate `findBase64Marker` to reach the suffix after the last occurrence;
the fuel bounds the number of iterations, each of which strictly shortens the
text. -/
def dropBase64HeaderFuel : Nat → List Char → List Char
  | 0, t => t
  | Nat.succ n, t =>
    match findBase64Marker t with
    | some s => dropBase64HeaderFuel n s
    | none => t

/-- `attachment_bytes.split("base64,")[-1]`: the suffix of the text after the
last occurrence of the literal `base64,`, or the whole text when the marker
does not occur — a data-URI header is thereby stripped before decoding. -/
def stripBase64Header (s : String) : String :=
  String.mk (dropBase64HeaderFuel s.toList.length s.toList)

/-- The JSON `attachment` object of a comment creation request; each key may
be missing. -/
structure AttachmentReq where
  body : Option String
  name : Option String
  deriving DecidableEq, Repr

/-- The body and path of a `POST /comment/...` request. -/
structure CommentPostRequest where
  resourceType : String
  resourceId : String
  text : String
  attachment : Option AttachmentReq
  groupIds : Option (List Nat)
  isTokenAuth : Bool
  authorName : String
  deriving DecidableEq, Repr

inductive CommentPostOutcome where
  | err (msg : String)
  | exn (e : PyExn)
  | ok (created : CommentRec) (events : List Event)
  deriving DecidableEq, Repr

/-- A failure of the kind-specific prerequisite lookup of comment creation:
a handled error response, or an uncaught Python exception (the shift branch
formats its error message from an unbound local and raises `NameError`). -/
inductive BuildErr where
  | err (msg : String)
  | exn (e : PyExn)
  deriving DecidableEq, Repr

/-- The users resolved by `users_mentioned`: candidate usernames of the text
that belong to a stored user with the mention preference active. -/
def mentionedUsers (st : CommentState) (text : String) : List (String × Bool) :=
  st.users.filter fun u =>
    (usersMentionedCandidates text.toList).contains u.1.toList && u.2

/-- The notification text and url endpoint per resource kind
(comment.py lines 439-454). -/
def mentionPayload (k : ResourceKind) (author rid : String) : String × String :=
  match k with
  | .sources => ("*@" ++ author ++ "* mentioned you in a comment on *" ++ rid
      ++ "*", "/source/" ++ rid)
  | .spectra => ("*@" ++ author ++ "* mentioned you in a comment on *" ++ rid
      ++ "*", "/source/" ++ rid)
  | .gcnEvent => ("*@" ++ author ++ "* mentioned you in a comment on *" ++ rid
      ++ "*", "/gcn_events/" ++ rid)
  | .shift => ("*@" ++ author ++ "* mentioned you in a comment on *shift "
      ++ rid ++ "*", "/shifts")

/-- The kind-specific construction of the new comment row
(comment.py lines 367-436), including the prerequisite lookups. -/
def buildComment (st : CommentState) (req : CommentPostRequest)
    (k : ResourceKind) (bytes name : Option String) :
    Except BuildErr CommentRec :=
  match k with
  | .sources =>
    .ok { id := st.nextCommentId, kind := .sources, objId := req.resourceId,
          spectrumId := 0, gcnId := 0, shiftId := 0, text := req.text,
          attachment_name := name, attachment_bytes := bytes,
          bot := req.isTokenAuth, authorName := req.authorName, groupIds := [] }
  | .spectra =>
    match st.spectra.find? (fun p => toString p.1 = req.resourceId) with
    | none => .error (.err noAccessibleSpectrumMsg)
    | some sp =>
      .ok { id := st.nextCommentId, kind := .spectra, objId := sp.2,
            spectrumId := sp.1, gcnId := 0, shiftId := 0, text := req.text,
            attachment_name := name, attachment_bytes := bytes,
            bot := req.isTokenAuth, authorName := req.authorName,
            groupIds := [] }
  | .gcnEvent =>
    match st.gcnEvents.find? (fun p => toString p.1 = req.resourceId) with
    | none => .error (.err noAccessibleGcnMsg)
    | some ge =>
      .ok { id := st.nextCommentId, kind := .gcnEvent, objId := "",
            spectrumId := 0, gcnId := ge.1, shiftId := 0, text := req.text,
            attachment_name := name, attachment_bytes := bytes,
            bot := req.isTokenAuth, authorName := req.authorName,
            groupIds := [] }
  | .shift =>
    match st.shiftIds.find? (fun i => toString i = req.resourceId) with
    | none => .error (.exn .nameError)
    | some sid =>
      .ok { id := st.nextCommentId, kind := .shift, objId := "",
            spectrumId := 0, gcnId := 0, shiftId := sid, text := req.text,
            attachment_name := name, attachment_bytes := bytes,
            bot := req.isTokenAuth, authorName := req.authorName,
            groupIds := [] }

/-- The post-commit refresh events of comment creation
(comment.py lines 475-497). -/
def postEvents (st : CommentState) (c : CommentRec) : Except PyExn (List Event) :=
  match (if hasObjAttr c.kind then
           (commentObjKey st c).map (fun key => [Event.refreshSource key])
         else .ok []) with
  | .error e => .error e
  | .ok base =>
    match c.kind with
    | .gcnEvent =>
      match (st.gcnEvents.find? (fun p => p.1 = c.gcnId)) with
      | some ge => .ok (base ++ [.refreshGcnEvent ge.2])
      | none => .error .attributeError
    | .spectra =>
      match commentObjKey st c with
      | .ok key => .ok (base ++ [.refreshSourceSpectra key])
      | .error e => .error e
    | .shift => .ok (base ++ [.refreshShifts (some c.shiftId)])
    | .sources => .ok base

/-- `CommentHandler.post` after the attachment shape check, given the decoded
attachment fields: group-id defaulting — an absent or empty list becomes the
caller-accessible groups — and exact-set validation, then the kind dispatch
with its prerequisite lookups, mention scanning, persistence of notification
rows and the comment in one commit, and finally the per-user notification
pushes and the kind-specific refresh broadcasts. Errors leave the state
unchanged. -/
def commentPostChecked (st : CommentState) (req : CommentPostRequest)
    (bytes name : Option String) : CommentPostOutcome × CommentState :=
  let groupIds :=
    match req.groupIds with
    | some (g :: gs) => g :: gs
    | _ => st.accessibleGroupIds
  let groups := resolveGroupIds st.accessibleGroupIds groupIds
  if !(sameIdSet groups groupIds) then
    (.err cannotFindGroupsMsg, st)
  else
    match parseResourceType req.resourceType with
    | none => (.err unsupportedResourceMsg, st)
    | some k =>
      match buildComment st req k bytes name with
      | .error (.err m) => (.err m, st)
      | .error (.exn e) => (.exn e, st)
      | .ok c0 =>
        let c := { c0 with groupIds := groups }
        let mentioned := mentionedUsers st req.text
        let payload := mentionPayload k req.authorName req.resourceId
        let st2 := { st with
          comments := st.comments ++ [c]
          notifications := st.notifications
            ++ mentioned.map (fun u => (u.1, payload.1))
          nextCommentId := st.nextCommentId + 1 }
        match postEvents st2 c with
        | .error e => (.exn e, st2)
        | .ok evs =>
          (.ok c (mentioned.map (fun u => Event.fetchNotifications u.1) ++ evs),
            st2)

/-- Shallow embedding of `CommentHandler.post` (comment.py lines 333-499):
the attachment shape check runs first, before any database work — an
`attachment` object must carry both `body` and `name`, else the request is
rejected with `Malformed comment attachment` — and the rest of the creation
then proceeds on the decoded attachment fields. -/
def commentPost (st : CommentState) (req : CommentPostRequest) :
    CommentPostOutcome × CommentState :=
  match req.attachment with
  | some att =>
    match att.body, att.name with
    | some b, some n =>
      commentPostChecked st req (some (stripBase64Header b)) (some n)
    | _, _ => (.err malformedAttachmentMsg, st)
  | none => commentPostChecked st req none none

/-- The body and path of a `PUT /comment/...` request: the optional `text`
field, the `attachment_name` key (whose value may itself be null), the popped
`attachment_bytes` value, and the popped `group_ids`. -/
structure CommentPutRequest where
  resourceType : String
  resourceId : String
  commentId : Nat
  text : Option String
  attachmentNameField : Option (Option String)
  attachment_bytes : Option String
  groupIds : Option (List Nat)
  deriving DecidableEq, Repr

inductive CommentPutOutcome where
  | err (msg : String)
  | exn (e : PyExn)
  | ok (updated : CommentRec) (events : List Event)
  deriving DecidableEq, Repr

/-- The post-commit refresh events of a comment update (comment.py lines
673-692): `REFRESH_SOURCE` when the variant has an `obj` attribute, then one
variant-specific event whose payload reads `c.obj.internal_key` for every
variant — including the GCN and shift variants, which have no `obj`. -/
def putEvents (st : CommentState) (c : CommentRec) : Except PyExn (List Event) :=
  match (if hasObjAttr c.kind then
           (commentObjKey st c).map (fun key => [Event.refreshSource key])
         else .ok []) with
  | .error e => .error e
  | .ok base =>
    match c.kind with
    | .spectra =>
      match commentObjKey st c with
      | .ok key => .ok (base ++ [.refreshSourceSpectra key])
      | .error e => .error e
    | .gcnEvent =>
      match commentObjKey st c with
      | .ok key => .ok (base ++ [.refreshSourceGcn key])
      | .error e => .error e
    | .shift =>
      match commentObjKey st c with
      | .ok key => .ok (base ++ [.refreshShift key])
      | .error e => .error e
    | .sources => .ok base

/-- `session.commit()` of an updated comment row: replace the stored row of
the same variant and id. -/
def commitComment (st : CommentState) (c : CommentRec) : CommentState :=
  { st with comments := st.comments.map (fun x =>
      if x.id = c.id && x.kind = c.kind then c else x) }

/-- The tail of `CommentHandler.put` after the updated row `c` has been
assembled: the path cross-check, the commit, and the refresh events. -/
def finishPut (st : CommentState) (c : CommentRec) (rid : String) :
    CommentPutOutcome × CommentState :=
  if commentResourceIdStr c ≠ rid then (.err resourceMismatchMsg, st)
  else
    let st2 := commitComment st c
    match putEvents st2 c with
    | .error e => (.exn e, st2)
    | .ok evs => (.ok c evs, st2)

/-- The field application of a comment update (comment.py lines 635-643):
set `text` when present, set `attachment_name` when the key is present (its
value may be null), and replace `attachment_bytes` with the decoded value
when one was supplied. -/
def applyPutFields (req : CommentPutRequest) (c0 : CommentRec) : CommentRec :=
  let c1 := match req.text with
    | some t => { c0 with text := t }
    | none => c0
  let c2 := match req.attachmentNameField with
    | some v => { c1 with attachment_name := v }
    | none => c1
  match req.attachment_bytes with
  | some b => { c2 with attachment_bytes := some (stripBase64Header b) }
  | none => c2

/-- Shallow embedding of `CommentHandler.put` (comment.py lines 560-694):
dispatch on the resource kind, load the comment through the update-mode
filter, apply the `text`, `attachment_name` and decoded `attachment_bytes`
fields, reject when exactly one of the attachment fields would stay null,
validate a replacement group-id list by exact set equality, cross-check the
path resource id, then commit and emit the refresh events. Every handled
error leaves the state unchanged. -/
def commentPut (st : CommentState) (req : CommentPutRequest) :
    CommentPutOutcome × CommentState :=
  match parseResourceType req.resourceType with
  | none => (.err unsupportedResourceMsg, st)
  | some k =>
    match findComment st k req.commentId st.updatableIds with
    | none => (.err noAccessibleCommentsMsg, st)
    | some c0 =>
      let c3 := applyPutFields req c0
      if c3.attachment_bytes.isNone ≠ c3.attachment_name.isNone then
        (.err attachmentNullMsg, st)
      else
        match req.groupIds with
        | some gids =>
          let groups := resolveGroupIds st.accessibleGroupIds gids
          if !(sameIdSet groups gids) then
            (.err cannotFindGroupsMsg, st)
          else finishPut st { c3 with groupIds := groups } req.resourceId
        | none => finishPut st c3 req.resourceId

inductive CommentGetOutcome where
  | err (msg : String)
  | ok (c : CommentRec)
  deriving DecidableEq, Repr

/-- Shallow embedding of the single-comment branch of `CommentHandler.get`
(comment.py lines 190-259): dispatch, read-mode load, path cross-check,
then return the comment. -/
def commentGetSingle (st : CommentState) (resourceType resourceId : String)
    (commentId : Nat) : CommentGetOutcome :=
  match parseResourceType resourceType with
  | none => (.err unsupportedResourceMsg)
  | some k =>
    match findComment st k commentId st.readableIds with
    | none => (.err noAccessibleCommentsMsg)
    | some c =>
      if commentResourceIdStr c ≠ resourceId then .err resourceMismatchMsg
      else .ok c

inductive CommentDeleteOutcome where
  | err (msg : String)
  | exn (e : PyExn)
  | ok (events : List Event)
  deriving DecidableEq, Repr

/-- The refresh-key capture preceding deletion (comment.py lines 794-797):
the GCN variant resolves its event `dateobs`, the shift variant captures
nothing, the other variants resolve `c.obj.internal_key`. -/
def deleteKeyCapture (st : CommentState) (c : CommentRec) :
    Except PyExn (Option String × Option String) :=
  match c.kind with
  | .gcnEvent =>
    match st.gcnEvents.find? (fun p => p.1 = c.gcnId) with
    | some ge => .ok (none, some ge.2)
    | none => .error .attributeError
  | .shift => .ok (none, none)
  | .sources => (commentObjKey st c).map (fun key => (some key, none))
  | .spectra => (commentObjKey st c).map (fun key => (some key, none))

/-- Shallow embedding of `CommentHandler.delete` (comment.py lines 736-828):
dispatch, delete-mode load, refresh-key capture, path cross-check, deletion
and commit, then the kind-specific refresh events. -/
def commentDelete (st : CommentState) (resourceType resourceId : String)
    (commentId : Nat) : CommentDeleteOutcome × CommentState :=
  match parseResourceType resourceType with
  | none => (.err unsupportedResourceMsg, st)
  | some k =>
    match findComment st k commentId st.deletableIds with
    | none => (.err noAccessibleCommentsMsg, st)
    | some c =>
      match deleteKeyCapture st c with
      | .error e => (.exn e, st)
      | .ok (objKey, dateobs) =>
        if commentResourceIdStr c ≠ resourceId then
          (.err resourceMismatchMsg, st)
        else
          let st2 := { st with comments := st.comments.filter (fun x =>
            !(x.id = c.id && x.kind = c.kind)) }
          let base := if hasObjAttr c.kind then
              [Event.refreshSource (objKey.getD "")]
            else []
          let evs := match c.kind with
            | .gcnEvent => base ++ [.refreshGcnEvent (dateobs.getD "")]
            | .spectra => base ++ [.refreshSourceSpectra (objKey.getD "")]
            | .shift => base ++ [.refreshShifts none]
            | .sources => base
          (.ok evs, st2)

/-- The value of a standard base64 alphabet character. -/
def b64Val (c : Char) : Option Nat :=
  let n := c.toNat
  if 65 ≤ n ∧ n ≤ 90 then some (n - 65)
  else if 97 ≤ n ∧ n ≤ 122 then some (n - 71)
  else if 48 ≤ n ∧ n ≤ 57 then some (n + 4)
  else if n = 43 then some 62
  else if n = 47 then some 63
  else none

/-- The bytes of one base64 quantum: two mandatory characters plus up to two
more; padding shortens the output. -/
def b64Group (a b : Nat) (c d : Option Nat) : List Nat :=
  match c, d with
  | none, _ => [a * 4 + b / 16]
  | some cv, none => [a * 4 + b / 16, b % 16 * 16 + cv / 4]
  | some cv, some dv => [a * 4 + b / 16, b % 16 * 16 + cv / 4, cv % 4 * 64 + dv]

/-- Decode groups of four base64 characters. -/
def b64DecodeAux : List Char → List Nat
  | a :: b :: c :: d :: rest =>
    match b64Val a, b64Val b with
    | some va, some vb => b64Group va vb (b64Val c) (b64Val d) ++ b64DecodeAux rest
    | _, _ => []
  | _ => []

/-- `base64.b64decode` on a valid input, as a byte list. -/
def b64decode (s : String) : List Nat := b64DecodeAux s.toList

/-- `.decode()` of an ASCII byte string. -/
def bytesToText (bs : List Nat) : String := String.mk (bs.map Char.ofNat)

/-- The three response shapes of `CommentAttachmentHandler.get`. -/
inductive AttachmentResponse where
  | err (msg : String)
  | rawDownload (contentDisposition contentType : String) (bytes : List Nat)
  | jsonBody (commentId : Nat) (attachment : String)
  deriving DecidableEq, Repr

/-- Python falsiness of the stored attachment bytes
(`if not comment.attachment_bytes`): a null column or an empty byte string. -/
def attachmentFalsy : Option String → Bool
  | none => true
  | some s => s = ""

/-- Shallow embedding of `CommentAttachmentHandler.get` (comment.py lines
897-988). `downloadArg` is the raw `download` query argument; per
`self.get_query_argument("download", True)` an absent argument yields the
boolean `True` and a supplied one yields its string, whose Python truthiness
(`if download:`) is falsy only for the empty string. -/
def commentAttachmentGet (st : CommentState) (resourceType resourceId : String)
    (commentId : Nat) (downloadArg : Option String) : AttachmentResponse :=
  let download : Bool :=
    match downloadArg with
    | none => true
    | some s => s ≠ ""
  match parseResourceType resourceType with
  | none => .err unsupportedResourceMsg
  | some k =>
    match findComment st k commentId st.readableIds with
    | none => .err noAccessibleCommentsMsg
    | some c =>
      if commentResourceIdStr c ≠ resourceId then .err resourceMismatchMsg
      else if attachmentFalsy c.attachment_bytes then .err noAttachmentMsg
      else if download then
        .rawDownload
          ("attachment; filename=" ++ (c.attachment_name.getD "None"))
          "application/octet-stream"
          (b64decode (c.attachment_bytes.getD ""))
      else
        .jsonBody commentId (bytesToText (b64decode (c.attachment_bytes.getD "")))

/-- A stored comment on a source object. -/
def srcComment : CommentRec :=
  { id := 4, kind := .sources, objId := "obj1", spectrumId := 0, gcnId := 0,
    shiftId := 0, text := "old", attachment_name := none,
    attachment_bytes := none, bot := false, authorName := "alice",
    groupIds := [1] }

/-- A stored comment on a GCN event. -/
def gcnComment : CommentRec :=
  { id := 5, kind := .gcnEvent, objId := "", spectrumId := 0, gcnId := 7,
    shiftId := 0, text := "old", attachment_name := none,
    attachment_bytes := none, bot := false, authorName := "alice",
    groupIds := [1] }

/-- A stored comment on a shift. -/
def shiftComment : CommentRec :=
  { id := 6, kind := .shift, objId := "", spectrumId := 0, gcnId := 0,
    shiftId := 3, text := "old", attachment_name := none,
    attachment_bytes := none, bot := false, authorName := "alice",
    groupIds := [1] }

/-- A comment-handler state holding one visible, updatable, deletable comment
of each of the three kinds above, with every referenced resource present. -/
def putState : CommentState :=
  { comments := [srcComment, gcnComment, shiftComment]
    readableIds := [4, 5, 6]
    updatableIds := [4, 5, 6]
    deletableIds := [4, 5, 6]
    accessibleGroupIds := [1]
    objs := [("obj1", "key1")]
    spectra := []
    gcnEvents := [(7, "2023-01-01T00:00:00")]
    shiftIds := [3]
    users := []
    notifications := []
    nextCommentId := 9 }

def srcPutReq : CommentPutRequest :=
  { resourceType := "sources", resourceId := "obj1", commentId := 4,
    text := some "new", attachmentNameField := none, attachment_bytes := none,
    groupIds := none }

def gcnPutReq : CommentPutRequest :=
  { resourceType := "gcn_event", resourceId := "7", commentId := 5,
    text := some "new", attachmentNameField := none, attachment_bytes := none,
    groupIds := none }

def shiftPutReq : CommentPutRequest :=
  { resourceType := "shift", resourceId := "3", commentId := 6,
    text := some "new", attachmentNameField := none, attachment_bytes := none,
    groupIds := none }

/-- A stored source comment carrying the base64 attachment of the two ASCII
bytes `hi`. -/
def attComment : CommentRec :=
  { id := 11, kind := .sources, objId := "obj1", spectrumId := 0, gcnId := 0,
    shiftId := 0, text := "see file", attachment_name := some "f.txt",
    attachment_bytes := some "aGk=", bot := false, authorName := "alice",
    groupIds := [1] }

/-- The same comment with no attachment. -/
def bareComment : CommentRec :=
  { id := 12, kind := .sources, objId := "obj1", spectrumId := 0, gcnId := 0,
    shiftId := 0, text := "bare", attachment_name := none,
    attachment_bytes := none, bot := false, authorName := "alice",
    groupIds := [1] }

def attState : CommentState :=
  { comments := [attComment, bareComment]
    readableIds := [11, 12]
    updatableIds := []
    deletableIds := []
    accessibleGroupIds := [1]
    objs := [("obj1", "key1")]
    spectra := []
    gcnEvents := []
    shiftIds := []
    users := []
    notifications := []
    nextCommentId := 13 }

/-- A stored source comment carrying both attachment fields, for the
update-rejection instance. -/
def c6Comment : CommentRec :=
  { id := 21, kind := .sources, objId := "obj1", spectrumId := 0, gcnId := 0,
    shiftId := 0, text := "note", attachment_name := some "f.txt",
    attachment_bytes := some "aGk=", bot := false, authorName := "alice",
    groupIds := [1] }

def c6State : CommentState :=
  { comments := [c6Comment]
    readableIds := [21]
    updatableIds := [21]
    deletableIds := [21]
    accessibleGroupIds := [1]
    objs := [("obj1", "key1")]
    spectra := []
    gcnEvents := []
    shiftIds := []
    users := []
    notifications := []
    nextCommentId := 22 }

/-- An update that nulls out only the attachment name. -/
def c6NullReq : CommentPutRequest :=
  { resourceType := "sources", resourceId := "obj1", commentId := 21,
    text := none, attachmentNameField := some none, attachment_bytes := none,
    groupIds := none }

/-- A creation request whose attachment object carries only a name. -/
def c6BadPost : CommentPostRequest :=
  { resourceType := "sources", resourceId := "obj1", text := "x",
    attachment := some { body := none, name := some "f.txt" },
    groupIds := none, isTokenAuth := false, authorName := "alice" }

/-- A plain creation request with no attachment. -/
def c6GoodPost : CommentPostRequest :=
  { resourceType := "sources", resourceId := "obj1", text := "hello",
    attachment := none, groupIds := none, isTokenAuth := false,
    authorName := "alice" }

/-- The comment row that `c6GoodPost` creates. -/
def c6NewComment : CommentRec :=
  { id := 22, kind := .sources, objId := "obj1", spectrumId := 0, gcnId := 0,
    shiftId := 0, text := "hello", attachment_name := none,
    attachment_bytes := none, bot := false, authorName := "alice",
    groupIds := [1] }

/-- The state after `c6GoodPost` commits. -/
def c6PostedState : CommentState :=
  { c6State with comments := [c6Comment, c6NewComment], nextCommentId := 23 }

def clsIsErr : ClsPostOutcome → Bool
  | .err _ => true
  | _ => false

def cpostIsErr : CommentPostOutcome → Bool
  | .err _ => true
  | _ => false

def cputIsErr : CommentPutOutcome → Bool
  | .err _ => true
  | _ => false

def c7ClsReq : ClsPostRequest :=
  { objId := "obj1", classification := "C", taxonomyId := 1,
    probability := none, groupIds := some [1, 3] }

def c7PostReq : CommentPostRequest :=
  { resourceType := "sources", resourceId := "obj1", text := "hello",
    attachment := none, groupIds := some [1, 3], isTokenAuth := false,
    authorName := "alice" }

def c7PutReq : CommentPutRequest :=
  { resourceType := "sources", resourceId := "obj1", commentId := 21,
    text := some "z", attachmentNameField := none, attachment_bytes := none,
    groupIds := some [1, 3] }

def cannotFindClassificationMsg : String :=
  "Cannot find a classification with that ID"

/-- The body of a classification update request: the partial fields applied
by `for k in data: setattr(c, k, data[k])` (modeled for the label and the
probability), and the popped `group_ids`. -/
structure ClsPutRequest where
  classificationId : Nat
  classification : Option String
  probability : Option (Option Rat)
  groupIds : Option (List Nat)
  deriving DecidableEq, Repr

inductive ClsPutOutcome where
  | err (msg : String)
  | exn (e : PyExn)
  | ok (updated : ClsRec) (events : List Event)
  deriving DecidableEq, Repr

def clsPutIsErr : ClsPutOutcome → Bool
  | .err _ => true
  | _ => false

/-- The field application of a classification update
(classification.py lines 340-341). -/
def applyClsPutFields (req : ClsPutRequest) (c0 : ClsRec) : ClsRec :=
  let c1 := match req.classification with
    | some v => { c0 with classification := v }
    | none => c0
  match req.probability with
  | some v => { c1 with probability := v }
  | none => c1

/-- `session.commit()` of an updated classification row: replace the stored
row of the same id. -/
def commitClassification (st : ClsState) (c : ClsRec) : ClsState :=
  { st with classifications := st.classifications.map (fun x =>
      if x.id = c.id then c else x) }

/-- The tail of `ClassificationHandler.put` after the updated row is
assembled: commit, then broadcast the two refresh events keyed by
`c.obj.internal_key` (an `AttributeError` after the commit when the object
row is missing). -/
def finishClsPut (st : ClsState) (c : ClsRec) : ClsPutOutcome × ClsState :=
  let st2 := commitClassification st c
  match lookupObjKey st.objs c.objId with
  | none => (.exn .attributeError, st2)
  | some key => (.ok c [.refreshSource key, .refreshCandidate key], st2)

/-- Shallow embedding of `ClassificationHandler.put` (classification.py lines
316-363): load the classification through the update-mode filter — supplied
as the list of classification ids the caller may update — apply the partial
fields, then, when `group_ids` was supplied, resolve the requested groups
against the caller-accessible ones and require exact id-set equality
(classification.py lines 343-350) before replacing the group set; commit and
re-broadcast the two refresh events. Errors leave the state unchanged. -/
def classificationPut (st : ClsState) (updatableIds : List Nat)
    (req : ClsPutRequest) : ClsPutOutcome × ClsState :=
  match st.classifications.find? (fun c =>
      c.id = req.classificationId && updatableIds.contains c.id) with
  | none => (.err cannotFindClassificationMsg, st)
  | some c0 =>
    let c1 := applyClsPutFields req c0
    match req.groupIds with
    | some gids =>
      let groups := resolveGroupIds st.accessibleGroupIds gids
      if !(sameIdSet groups gids) then
        (.err cannotFindGroupsMsg, st)
      else finishClsPut st { c1 with groupIds := groups }
    | none => finishClsPut st c1

/-- A stored classification for the update-validation instance. -/
def c7StoredCls : ClsRec :=
  { id := 40, classification := "C", objId := "obj1", probability := none,
    taxonomyId := 1, authorName := "alice", groupIds := [1] }

def c7ClsPutState : ClsState :=
  { clsState0 with classifications := [c7StoredCls] }

def c7ClsPutReq : ClsPutRequest :=
  { classificationId := 40, classification := none, probability := none,
    groupIds := some [1, 3] }

/-- A comment creation request supplying an explicit empty group-id list. -/
def c7EmptyPostReq : CommentPostRequest :=
  { resourceType := "sources", resourceId := "obj1", text := "hello",
    attachment := none, groupIds := some [], isTokenAuth := false,
    authorName := "alice" }

/-- The comment that `c7EmptyPostReq` creates on `c6State`: its group set is
the caller-accessible group 1, not the requested empty set. -/
def c7EmptyComment : CommentRec :=
  { id := 22, kind := .sources, objId := "obj1", spectrumId := 0, gcnId := 0,
    shiftId := 0, text := "hello", attachment_name := none,
    attachment_bytes := none, bot := false, authorName := "alice",
    groupIds := [1] }

def c7EmptyPostedState : CommentState :=
  { c6State with comments := [c6Comment, c7EmptyComment], nextCommentId := 23 }

def c10ClsReq : ClsPostRequest :=
  { objId := "obj1", classification := "C", taxonomyId := 1,
    probability := none, groupIds := some [] }

def c10PostReq : CommentPostRequest :=
  { resourceType := "sources", resourceId := "obj1", text := "hello",
    attachment := none, groupIds := some [], isTokenAuth := false,
    authorName := "alice" }

/-- The classification that `c10ClsReq` creates: its group set is empty. -/
def c10Cls : ClsRec :=
  { id := 10, classification := "C", objId := "obj1", probability := none,
    taxonomyId := 1, authorName := "alice", groupIds := [] }

def c10ClsState : ClsState :=
  { clsState0 with classifications := [c10Cls], nextClassificationId := 11 }

def c8Comment : CommentRec :=
  { id := 31, kind := .sources, objId := "objA", spectrumId := 0, gcnId := 0,
    shiftId := 0, text := "note", attachment_name := none,
    attachment_bytes := none, bot := false, authorName := "alice",
    groupIds := [1] }

def c8State : CommentState :=
  { comments := [c8Comment]
    readableIds := [31]
    updatableIds := [31]
    deletableIds := [31]
    accessibleGroupIds := [1]
    objs := [("objA", "keyA")]
    spectra := []
    gcnEvents := []
    shiftIds := []
    users := []
    notifications := []
    nextCommentId := 32 }

theorem mention_pointwise (w0 : List Char) :
    (match pyStrip pyPunct w0 with
     | c :: rest =>
       if c = atSign then some ((c :: rest).filter (fun d => d ≠ atSign)) else none
     | [] => none)
    = Option.map (fun w => w.filter (fun d => d ≠ atSign))
        (match pyStrip pyPunct w0 with
         | c :: rest => if c = atSign then some rest else none
         | [] => none) := by
  cases h : pyStrip pyPunct w0 with
  | nil => simp
  | cons c rest =>
    by_cases hc : c = atSign
    · subst hc
      simp [List.filter_cons]
    · simp [hc]

/-- Claim C2 counterexample: on the input `"@a@b"` the code removes every at
sign of the kept token (Python `str.replace` replaces all occurrences), while
the claim as stated would preserve the inner at sign. -/
theorem c2_counterexample :
    usersMentionedCandidates ("@a@b".toList) = ["ab".toList] ∧
    specMentionCandidates ("@a@b".toList) = ["a@b".toList] ∧
    usersMentionedCandidates ("@a@b".toList) ≠ specMentionCandidates ("@a@b".toList) :=
  ⟨by decide, by decide, by decide⟩

/-- Claim C2 (amended): the mention helper returns exactly the candidates of
the claimed tokenization except that every at sign (not only the leading one)
is removed from each kept token; on the claim example the two agree. -/
theorem c2_mention_extraction (text : List Char) :
    usersMentionedCandidates text
      = (specMentionCandidates text).map (fun w => w.filter (fun d => d ≠ atSign)) ∧
    usersMentionedCandidates ("hi @bob, see @alice-2!".toList)
      = ["bob".toList, "alice-2".toList] := by
  constructor
  · unfold usersMentionedCandidates specMentionCandidates
    rw [List.map_filterMap]
    apply List.filterMap_congr
    intro w0 _
    have h := mention_pointwise w0
    cases hs : pyStrip pyPunct w0 with
    | nil => simp [hs] at h ⊢
    | cons c rest => simpa [hs] using h
  · decide

theorem minCreatedAt_go_isSome (l : List CandidateRec) (m : Nat) :
    (l.foldl
      (fun acc c =>
        match acc with
        | none => some c.createdAt
        | some m => some (min m c.createdAt))
      (some m)).isSome = true := by
  induction l generalizing m with
  | nil => rfl
  | cons c t ih => exact ih _

theorem maxCreatedAt_go_isSome (l : List CandidateRec) (m : Nat) :
    (l.foldl
      (fun acc c =>
        match acc with
        | none => some c.createdAt
        | some m => some (max m c.createdAt))
      (some m)).isSome = true := by
  induction l generalizing m with
  | nil => rfl
  | cons c t ih => exact ih _

theorem minCreatedAt_isNone_iff (l : List CandidateRec) :
    (minCreatedAt l).isNone = l.isEmpty := by
  cases l with
  | nil => rfl
  | cons c t =>
    simp only [minCreatedAt, List.foldl_cons, List.isEmpty_cons]
    have h := minCreatedAt_go_isSome t c.createdAt
    cases hfold : (t.foldl
      (fun acc c =>
        match acc with
        | none => some c.createdAt
        | some m => some (min m c.createdAt))
      (some c.createdAt)) with
    | none => rw [hfold] at h; simp at h
    | some v => simp [hfold]

theorem maxCreatedAt_isNone_iff (l : List CandidateRec) :
    (maxCreatedAt l).isNone = l.isEmpty := by
  cases l with
  | nil => rfl
  | cons c t =>
    simp only [maxCreatedAt, List.foldl_cons, List.isEmpty_cons]
    have h := maxCreatedAt_go_isSome t c.createdAt
    cases hfold : (t.foldl
      (fun acc c =>
        match acc with
        | none => some c.createdAt
        | some m => some (max m c.createdAt))
      (some c.createdAt)) with
    | none => rw [hfold] at h; simp at h
    | some v => simp [hfold]

/-- Claim C9: the reported photometry count is the storage-engine cardinality
estimate (and can differ from the exact row count, as the final conjunct
shows on a concrete database), the other seven counts are exact row counts,
and each candidate-timestamp field is absent exactly when the corresponding
candidate query matches no row. -/
theorem c9_stats_report (db : StatsDB) :
    (statsGet db).numPhotometryApprox = db.photometryEstimate ∧
    (statsGet db).numCandidates = db.candidates.length ∧
    (statsGet db).numSources = db.sources.length ∧
    (statsGet db).numObjs = db.objs.length ∧
    (statsGet db).numSpectra = db.spectra.length ∧
    (statsGet db).numGroups = db.groups.length ∧
    (statsGet db).numUsers = db.users.length ∧
    (statsGet db).numTokens = db.tokens.length ∧
    ((statsGet db).oldestCandidate).isNone = db.candidates.isEmpty ∧
    ((statsGet db).newestCandidate).isNone = db.candidates.isEmpty ∧
    ((statsGet db).oldestUnsavedCandidate).isNone
      = (db.candidates.filter (fun c => !(db.sources.contains c.objId))).isEmpty ∧
    (statsGet
        { photometryEstimate := 7, photometry := [()], candidates := [],
          sources := [], objs := [], spectra := [], groups := [], users := [],
          tokens := [], cronRuns := [] }).numPhotometryApprox
      ≠ (([()] : List Unit).length : Int) := by
  refine ⟨rfl, rfl, rfl, rfl, rfl, rfl, rfl, rfl, ?_, ?_, ?_, by decide⟩
  · exact minCreatedAt_isNone_iff db.candidates
  · exact maxCreatedAt_isNone_iff db.candidates
  · exact minCreatedAt_isNone_iff _

mutual

theorem mem_allowedClasses_iff (label : String) :
    (h : Hierarchy) → (label ∈ allowedClasses h ↔ OccursIn label h)
  | .node cl none => by
    constructor
    · intro hm
      cases cl with
      | none => simp [allowedClasses] at hm
      | some c =>
        simp [allowedClasses, Option.toList] at hm
        subst hm
        exact .here none
    · intro hocc
      cases hocc with
      | here sub => simp [allowedClasses, Option.toList]
  | .node cl (some subs) => by
    constructor
    · intro hm
      simp only [allowedClasses, List.mem_append] at hm
      rcases hm with hm | hm
      · cases cl with
        | none => simp at hm
        | some c =>
          simp [Option.toList] at hm
          subst hm
          exact .here (some subs)
      · obtain ⟨h, hmem, hocc⟩ := (mem_allowedClassesList_iff label subs).mp hm
        exact .there cl subs h hmem hocc
    · intro hocc
      cases hocc with
      | here sub =>
        simp [allowedClasses, Option.toList]
      | there cl sub h hmem hocc =>
        simp only [allowedClasses, List.mem_append]
        exact Or.inr ((mem_allowedClassesList_iff label subs).mpr ⟨h, hmem, hocc⟩)

theorem mem_allowedClassesList_iff (label : String) :
    (l : List Hierarchy) →
      (label ∈ allowedClassesList l ↔ ∃ h ∈ l, OccursIn label h)
  | [] => by simp [allowedClassesList]
  | h :: t => by
    simp only [allowedClassesList, List.mem_append]
    constructor
    · intro hm
      rcases hm with hm | hm
      · exact ⟨h, List.mem_cons_self h t, (mem_allowedClasses_iff label h).mp hm⟩
      · obtain ⟨g, hg, hocc⟩ := (mem_allowedClassesList_iff label t).mp hm
        exact ⟨g, List.mem_cons_of_mem h hg, hocc⟩
    · rintro ⟨g, hg, hocc⟩
      rcases List.mem_cons.mp hg with rfl | hg
      · exact Or.inl ((mem_allowedClasses_iff label g).mpr hocc)
      · exact Or.inr ((mem_allowedClassesList_iff label t).mpr ⟨g, hg, hocc⟩)

end

/-- Claim C1: with the requested taxonomy resolved, the creation is rejected
with the InvalidInput label error, leaving the state unchanged, exactly when
the label does not occur as a `class` entry anywhere in the hierarchy tree;
when it does occur the label validation never fires. -/
theorem c1_classification_label_validation (st : ClsState) (req : ClsPostRequest)
    (hier : Hierarchy) (htax : lookupTaxonomy st req.taxonomyId = some hier) :
    (¬ OccursIn req.classification hier →
      classificationPost st req = (.err classNotAllowedMsg, st)) ∧
    (OccursIn req.classification hier →
      (classificationPost st req).1 ≠ ClsPostOutcome.err classNotAllowedMsg) := by
  have hiff := mem_allowedClasses_iff req.classification hier
  constructor
  · intro hnot
    have hmemProp : req.classification ∉ allowedClasses hier :=
      fun hm => hnot (hiff.mp hm)
    simp [classificationPost, htax, hmemProp]
  · intro hocc
    have hc : (allowedClasses hier).contains req.classification = true := by
      simpa using hiff.mpr hocc
    simp only [classificationPost, htax, hc, Bool.not_true, Bool.false_eq_true,
      if_false]
    split
    · intro h
      exact absurd (ClsPostOutcome.err.inj h) (by decide)
    · split
      · intro h
        exact absurd (ClsPostOutcome.err.inj h) (by decide)
      · cases lookupObjKey st.objs req.objId <;> simp

/-- Claim C1 witness: the label Z absent from the tree is rejected with the
state untouched, and the label C sitting at depth two passes the label
validation. -/
theorem c1_classification_label_validation_witness :
    classificationPost clsState0 clsReqZ = (.err classNotAllowedMsg, clsState0) ∧
    (classificationPost clsState0 clsReqC).1 ≠ ClsPostOutcome.err classNotAllowedMsg :=
  ⟨(c1_classification_label_validation clsState0 clsReqZ hier0 rfl).1
      (fun h => absurd ((mem_allowedClasses_iff "Z" hier0).mpr h) (by decide)),
   (c1_classification_label_validation clsState0 clsReqC hier0 rfl).2
      ((mem_allowedClasses_iff "C" hier0).mp (by decide))⟩

/-- Claim C5: `numPerPage=1000` is silently clamped to 500 rows at most, but
supplying `pageNumber=2` makes the handler subtract the integer 1 from the
raw query string and raise a `TypeError`, so the claimed offset behaviour
never happens for an explicit page number. -/
theorem c5_pagination (rows : List ClsRec) :
    resultRowCount (classificationsGet rows none (some "1000")) ≤ 500 ∧
    classificationsGet rows none (some "1000") = .ok (rows.take 500, rows.length) ∧
    classificationsGet rows (some "2") (some "10") = .error .typeError := by
  have h1000 : pyToInt "1000" = .ok (1000 : Int) := rfl
  have h10 : pyToInt "10" = .ok (10 : Int) := rfl
  have hmain : classificationsGet rows none (some "1000")
      = .ok (rows.take 500, rows.length) := by
    simp only [classificationsGet, h1000, pySubInt]
    norm_num
    rfl
  refine ⟨?_, hmain, ?_⟩
  · rw [hmain]
    simp only [resultRowCount]
    exact List.length_take_le _ _
  · simp only [classificationsGet, h10, pySubInt]

/-- Claim C3: updating an object comment does succeed and broadcasts
`REFRESH_SOURCE`, but updating a visible GCN or shift comment commits the text
change and then raises `AttributeError` while building the
`REFRESH_SOURCE_GCN` / `REFRESH_SHIFT` payload from `c.obj.internal_key`
(comment.py lines 683-692), because those variants have no `obj` — so no
variant event is ever emitted and the request does not succeed. -/
theorem c3_put_refresh_events :
    commentPut putState srcPutReq
      = (.ok { srcComment with text := "new" } [.refreshSource "key1"],
         commitComment putState { srcComment with text := "new" }) ∧
    commentPut putState gcnPutReq
      = (.exn .attributeError,
         commitComment putState { gcnComment with text := "new" }) ∧
    commentPut putState shiftPutReq
      = (.exn .attributeError,
         commitComment putState { shiftComment with text := "new" }) := by
  refine ⟨by decide, by decide, by decide⟩

/-- Claim C4: with the `download` query parameter absent the handler returns
the raw decoded bytes with the attachment headers, and an empty attachment
errors with `Comment has no attachment`; but a client-supplied
`download=false` arrives as the non-empty string `"false"`, which is truthy
in Python, so the handler still returns the raw download instead of the
JSON body its own docstring promises — only the empty string reaches the
JSON branch. -/
theorem c4_attachment_download :
    commentAttachmentGet attState "sources" "obj1" 11 none
      = .rawDownload "attachment; filename=f.txt" "application/octet-stream"
          [104, 105] ∧
    commentAttachmentGet attState "sources" "obj1" 11 (some "false")
      = .rawDownload "attachment; filename=f.txt" "application/octet-stream"
          [104, 105] ∧
    commentAttachmentGet attState "sources" "obj1" 11 (some "")
      = .jsonBody 11 "hi" ∧
    commentAttachmentGet attState "sources" "obj1" 12 none
      = .err noAttachmentMsg := by
  refine ⟨by decide, by decide, by decide, by decide⟩

theorem buildComment_attachment (st : CommentState) (req : CommentPostRequest)
    (k : ResourceKind) (bytes name : Option String) (c : CommentRec)
    (h : buildComment st req k bytes name = .ok c) :
    c.attachment_name = name ∧ c.attachment_bytes = bytes := by
  cases k <;> simp only [buildComment] at h
  case sources =>
    injection h with h
    subst h
    exact ⟨rfl, rfl⟩
  all_goals
    split at h
    next => simp at h
    next =>
      injection h with h
      subst h
      exact ⟨rfl, rfl⟩

theorem commentPostChecked_ok_attachment (st : CommentState)
    (req : CommentPostRequest) (bytes name : Option String) (c : CommentRec)
    (evs : List Event) (st2 : CommentState)
    (h : commentPostChecked st req bytes name = (.ok c evs, st2)) :
    c.attachment_name = name ∧ c.attachment_bytes = bytes := by
  simp only [commentPostChecked] at h
  split at h
  · simp at h
  · split at h
    · simp at h
    · split at h
      · simp at h
      · simp at h
      · rename_i k hk c0 hbuild
        split at h
        · simp at h
        · rw [Prod.mk.injEq] at h
          obtain ⟨h1, -⟩ := h
          injection h1 with hc hevs
          obtain ⟨hn, hb⟩ := buildComment_attachment _ _ _ _ _ _ hbuild
          rw [← hc]
          exact ⟨hn, hb⟩

theorem finishPut_ok_comment (st : CommentState) (c : CommentRec) (rid : String)
    (c2 : CommentRec) (evs : List Event) (st2 : CommentState)
    (h : finishPut st c rid = (.ok c2 evs, st2)) : c2 = c := by
  simp only [finishPut] at h
  split at h
  · simp at h
  · split at h
    · simp at h
    · rw [Prod.mk.injEq] at h
      obtain ⟨h1, -⟩ := h
      injection h1 with hc hevs
      exact hc.symm

theorem finishPut_err_state (st : CommentState) (c : CommentRec) (rid : String)
    (m : String) (st2 : CommentState)
    (h : finishPut st c rid = (.err m, st2)) : st2 = st := by
  simp only [finishPut] at h
  split at h
  · rw [Prod.mk.injEq] at h
    exact h.2.symm
  · split at h <;> simp at h

theorem commentPut_ok_attachment (st : CommentState) (req : CommentPutRequest)
    (c : CommentRec) (evs : List Event) (st2 : CommentState)
    (h : commentPut st req = (.ok c evs, st2)) :
    c.attachment_name.isSome = c.attachment_bytes.isSome := by
  simp only [commentPut] at h
  split at h
  · simp at h
  · split at h
    · simp at h
    · rename_i k hk c0 hfind
      generalize hc3 : applyPutFields req c0 = c3 at h
      split at h
      · simp at h
      · rename_i hxor
        have hiso : c3.attachment_bytes.isNone = c3.attachment_name.isNone := by
          by_contra hne
          exact hxor hne
        split at h
        · rename_i gids hg
          split at h
          · simp at h
          · have hceq := finishPut_ok_comment _ _ _ _ _ _ h
            rw [hceq]
            cases hcb : c3.attachment_bytes <;> cases hcn : c3.attachment_name <;>
              simp_all
        · have hceq := finishPut_ok_comment _ _ _ _ _ _ h
          rw [hceq]
          cases hcb : c3.attachment_bytes <;> cases hcn : c3.attachment_name <;>
            simp_all

theorem commentPut_err_state (st : CommentState) (req : CommentPutRequest)
    (m : String) (st2 : CommentState)
    (h : commentPut st req = (.err m, st2)) : st2 = st := by
  simp only [commentPut] at h
  split at h
  · rw [Prod.mk.injEq] at h
    exact h.2.symm
  · split at h
    · rw [Prod.mk.injEq] at h
      exact h.2.symm
    · split at h
      · rw [Prod.mk.injEq] at h
        exact h.2.symm
      · split at h
        · split at h
          · rw [Prod.mk.injEq] at h
            exact h.2.symm
          · exact finishPut_err_state _ _ _ _ _ h
        · exact finishPut_err_state _ _ _ _ _ h

/-- Claim C6: a creation whose attachment object misses `body` or `name` is
rejected with `Malformed comment attachment` and the state is untouched; a
successful creation or update always leaves the attachment name and bytes
both present or both absent; an update failing with any handled error — in
particular the null-attachment-field error, shown on a concrete instance —
does not commit. -/
theorem c6_attachment_invariant (st : CommentState) (preq : CommentPostRequest)
    (ureq : CommentPutRequest) :
    (∀ att, preq.attachment = some att →
      (att.body.isSome && att.name.isSome) = false →
      commentPost st preq = (.err malformedAttachmentMsg, st)) ∧
    (∀ c evs st2, commentPost st preq = (.ok c evs, st2) →
      c.attachment_name.isSome = c.attachment_bytes.isSome) ∧
    (∀ c evs st2, commentPut st ureq = (.ok c evs, st2) →
      c.attachment_name.isSome = c.attachment_bytes.isSome) ∧
    (∀ m st2, commentPut st ureq = (.err m, st2) → st2 = st) ∧
    commentPut c6State c6NullReq = (.err attachmentNullMsg, c6State) := by
  refine ⟨?_, ?_, ?_, ?_, by decide⟩
  · intro att hatt hbad
    cases hb : att.body <;> cases hn : att.name <;>
      simp_all [commentPost]
  · intro c evs st2 hok
    cases hatt : preq.attachment with
    | none =>
      simp only [commentPost, hatt] at hok
      obtain ⟨h1, h2⟩ := commentPostChecked_ok_attachment _ _ _ _ _ _ _ hok
      rw [h1, h2]
    | some att =>
      cases hb : att.body <;> cases hn : att.name <;>
        simp only [commentPost, hatt, hb, hn] at hok
      · simp at hok
      · simp at hok
      · simp at hok
      · obtain ⟨h1, h2⟩ := commentPostChecked_ok_attachment _ _ _ _ _ _ _ hok
        rw [h1, h2]
        rfl
  · intro c evs st2 hok
    exact commentPut_ok_attachment st ureq c evs st2 hok
  · intro m st2 herr
    exact commentPut_err_state st ureq m st2 herr

/-- Claim C6 witness: the malformed-attachment rejection fires on a concrete
name-only attachment leaving the state unchanged, and a concrete successful
creation satisfies the both-or-neither invariant. -/
theorem c6_attachment_invariant_witness :
    commentPost c6State c6BadPost = (.err malformedAttachmentMsg, c6State) ∧
    c6NewComment.attachment_name.isSome = c6NewComment.attachment_bytes.isSome :=
  ⟨(c6_attachment_invariant c6State c6BadPost c6NullReq).1
      { body := none, name := some "f.txt" } rfl (by decide),
   (c6_attachment_invariant c6State c6GoodPost c6NullReq).2.1 c6NewComment
      [.refreshSource "key1"] c6PostedState (by decide)⟩

theorem classificationPost_group_err (st : ClsState) (req : ClsPostRequest)
    (gids : List Nat) (hc : req.groupIds = some gids)
    (hfalse : sameIdSet (resolveGroupIds st.accessibleGroupIds gids) gids = false) :
    clsIsErr (classificationPost st req).1 = true ∧
    (classificationPost st req).2 = st := by
  simp only [classificationPost, hc, Option.getD_some]
  cases ht : lookupTaxonomy st req.taxonomyId with
  | none => simp [clsIsErr]
  | some hier =>
    simp only []
    split
    · simp [clsIsErr]
    · split
      · simp [clsIsErr]
      · rw [hfalse]
        simp [clsIsErr]

theorem commentPostChecked_group_err (cst : CommentState)
    (req : CommentPostRequest) (g : Nat) (gs : List Nat)
    (hp : req.groupIds = some (g :: gs)) (bytes name : Option String)
    (hfalse : sameIdSet (resolveGroupIds cst.accessibleGroupIds (g :: gs))
      (g :: gs) = false) :
    commentPostChecked cst req bytes name = (.err cannotFindGroupsMsg, cst) := by
  simp only [commentPostChecked, hp]
  rw [hfalse]
  simp

theorem commentPost_group_err (cst : CommentState) (req : CommentPostRequest)
    (g : Nat) (gs : List Nat) (hp : req.groupIds = some (g :: gs))
    (hfalse : sameIdSet (resolveGroupIds cst.accessibleGroupIds (g :: gs))
      (g :: gs) = false) :
    cpostIsErr (commentPost cst req).1 = true ∧
    (commentPost cst req).2 = cst := by
  cases hatt : req.attachment with
  | none =>
    simp only [commentPost, hatt,
      commentPostChecked_group_err cst req g gs hp _ _ hfalse]
    simp [cpostIsErr]
  | some att =>
    cases hb : att.body <;> cases hn : att.name <;>
      simp only [commentPost, hatt, hb, hn,
        commentPostChecked_group_err cst req g gs hp _ _ hfalse] <;>
      simp [cpostIsErr]

theorem commentPut_group_err (cst : CommentState) (req : CommentPutRequest)
    (gids : List Nat) (hu : req.groupIds = some gids)
    (hfalse : sameIdSet (resolveGroupIds cst.accessibleGroupIds gids) gids
      = false) :
    cputIsErr (commentPut cst req).1 = true ∧
    (commentPut cst req).2 = cst := by
  simp only [commentPut]
  split
  · simp [cputIsErr]
  · split
    · simp [cputIsErr]
    · split
      · simp [cputIsErr]
      · rw [hu]
        simp only []
        rw [hfalse]
        simp [cputIsErr]

theorem classificationPut_group_err (st : ClsState) (updIds : List Nat)
    (req : ClsPutRequest) (gids : List Nat)
    (hg : req.groupIds = some gids)
    (hfalse : sameIdSet (resolveGroupIds st.accessibleGroupIds gids) gids
      = false) :
    clsPutIsErr (classificationPut st updIds req).1 = true ∧
    (classificationPut st updIds req).2 = st := by
  simp only [classificationPut]
  split
  · simp [clsPutIsErr]
  · rw [hg]
    simp only []
    rw [hfalse]
    simp [clsPutIsErr]

/-- Claim C7 counterexample: comment creation with an explicit (empty)
group-id list succeeds, yet the group set it resolves and attaches — every
caller-accessible group, here group 1 — is not equal to the requested set,
because `if not group_ids:` replaces the empty list before the exact-set
check runs (comment.py lines 356-358). -/
theorem c7_group_set_validation_counterexample :
    c7EmptyPostReq.groupIds = some [] ∧
    commentPost c6State c7EmptyPostReq
      = (.ok c7EmptyComment [.refreshSource "key1"], c7EmptyPostedState) ∧
    c7EmptyComment.groupIds = [1] ∧
    sameIdSet c7EmptyComment.groupIds [] = false :=
  ⟨rfl, by decide, rfl, by decide⟩

/-- Claim C7 (amended): for classification creation, classification update,
comment creation with a non-empty explicit list, and comment update, a
requested group-id set that does not resolve exactly — some requested group
missing or inaccessible — yields a handled InvalidInput error and leaves the
state unchanged, and a successful operation implies the resolved
accessible-group id set equals the requested set; comment creation with an
explicit empty list is excluded, since it substitutes the caller-accessible
groups (see the counterexample). -/
theorem c7_group_set_validation (st : ClsState) (cst : CommentState)
    (updIds : List Nat)
    (clsReq : ClsPostRequest) (clsPutReq : ClsPutRequest)
    (preq : CommentPostRequest) (ureq : CommentPutRequest) (gids : List Nat)
    (hc : clsReq.groupIds = some gids)
    (hcp : clsPutReq.groupIds = some gids)
    (hp : preq.groupIds = some gids)
    (hu : ureq.groupIds = some gids) :
    (sameIdSet (resolveGroupIds st.accessibleGroupIds gids) gids = false →
      clsIsErr (classificationPost st clsReq).1 = true ∧
      (classificationPost st clsReq).2 = st) ∧
    (∀ c evs st2, classificationPost st clsReq = (.ok c evs, st2) →
      sameIdSet (resolveGroupIds st.accessibleGroupIds gids) gids = true) ∧
    (sameIdSet (resolveGroupIds st.accessibleGroupIds gids) gids = false →
      clsPutIsErr (classificationPut st updIds clsPutReq).1 = true ∧
      (classificationPut st updIds clsPutReq).2 = st) ∧
    (∀ c evs st2, classificationPut st updIds clsPutReq = (.ok c evs, st2) →
      sameIdSet (resolveGroupIds st.accessibleGroupIds gids) gids = true) ∧
    (gids ≠ [] →
      sameIdSet (resolveGroupIds cst.accessibleGroupIds gids) gids = false →
      cpostIsErr (commentPost cst preq).1 = true ∧
      (commentPost cst preq).2 = cst) ∧
    (gids ≠ [] → ∀ c evs st2, commentPost cst preq = (.ok c evs, st2) →
      sameIdSet (resolveGroupIds cst.accessibleGroupIds gids) gids = true) ∧
    (sameIdSet (resolveGroupIds cst.accessibleGroupIds gids) gids = false →
      cputIsErr (commentPut cst ureq).1 = true ∧
      (commentPut cst ureq).2 = cst) ∧
    (∀ c evs st2, commentPut cst ureq = (.ok c evs, st2) →
      sameIdSet (resolveGroupIds cst.accessibleGroupIds gids) gids = true) := by
  refine ⟨classificationPost_group_err st clsReq _ hc, ?_,
    classificationPut_group_err st updIds clsPutReq _ hcp, ?_,
    ?_, ?_,
    commentPut_group_err cst ureq _ hu, ?_⟩
  · intro c evs st2 hok
    cases hbool : sameIdSet
        (resolveGroupIds st.accessibleGroupIds gids) gids with
    | true => rfl
    | false =>
      obtain ⟨he, -⟩ := classificationPost_group_err st clsReq _ hc hbool
      rw [hok] at he
      simp [clsIsErr] at he
  · intro c evs st2 hok
    cases hbool : sameIdSet
        (resolveGroupIds st.accessibleGroupIds gids) gids with
    | true => rfl
    | false =>
      obtain ⟨he, -⟩ := classificationPut_group_err st updIds clsPutReq _ hcp hbool
      rw [hok] at he
      simp [clsPutIsErr] at he
  · intro hne
    cases gids with
    | nil => exact absurd rfl hne
    | cons g gs => exact commentPost_group_err cst preq g gs hp
  · intro hne c evs st2 hok
    cases gids with
    | nil => exact absurd rfl hne
    | cons g gs =>
      cases hbool : sameIdSet
          (resolveGroupIds cst.accessibleGroupIds (g :: gs)) (g :: gs) with
      | true => rfl
      | false =>
        obtain ⟨he, -⟩ := commentPost_group_err cst preq g gs hp hbool
        rw [hok] at he
        simp [cpostIsErr] at he
  · intro c evs st2 hok
    cases hbool : sameIdSet
        (resolveGroupIds cst.accessibleGroupIds gids) gids with
    | true => rfl
    | false =>
      obtain ⟨he, -⟩ := commentPut_group_err cst ureq _ hu hbool
      rw [hok] at he
      simp [cputIsErr] at he

/-- Claim C7 witness: requesting group ids `[1, 3]` when only group 1 is
accessible makes all four operations fail with a handled error and leave
their state untouched. -/
theorem c7_group_set_validation_witness :
    clsIsErr (classificationPost clsState0 c7ClsReq).1 = true ∧
    (classificationPost clsState0 c7ClsReq).2 = clsState0 ∧
    clsPutIsErr (classificationPut c7ClsPutState [40] c7ClsPutReq).1 = true ∧
    (classificationPut c7ClsPutState [40] c7ClsPutReq).2 = c7ClsPutState ∧
    cpostIsErr (commentPost c6State c7PostReq).1 = true ∧
    (commentPost c6State c7PostReq).2 = c6State ∧
    cputIsErr (commentPut c6State c7PutReq).1 = true ∧
    (commentPut c6State c7PutReq).2 = c6State := by
  obtain ⟨h1, -, -, -, h3, -, h5, -⟩ :=
    c7_group_set_validation clsState0 c6State [40] c7ClsReq c7ClsPutReq
      c7PostReq c7PutReq [1, 3] rfl rfl rfl rfl
  obtain ⟨-, -, h2, -, -, -, -, -⟩ :=
    c7_group_set_validation c7ClsPutState c6State [40] c7ClsReq c7ClsPutReq
      c7PostReq c7PutReq [1, 3] rfl rfl rfl rfl
  obtain ⟨a1, a2⟩ := h1 (by decide)
  obtain ⟨e1, e2⟩ := h2 (by decide)
  obtain ⟨b1, b2⟩ := h3 (by decide) (by decide)
  obtain ⟨d1, d2⟩ := h5 (by decide)
  exact ⟨a1, a2, e1, e2, b1, b2, d1, d2⟩

theorem resolveGroupIds_self (l : List Nat) : resolveGroupIds l l = l := by
  simp only [resolveGroupIds]
  exact List.filter_eq_self.mpr (fun a ha => by simpa using ha)

theorem resolveGroupIds_nil (l : List Nat) : resolveGroupIds l [] = [] := by
  induction l with
  | nil => rfl
  | cons x xs ih =>
    simp only [resolveGroupIds, List.filter] at ih ⊢
    simp [ih]

theorem commentPostChecked_ok_groups (cst : CommentState)
    (req : CommentPostRequest) (bytes name : Option String) (c : CommentRec)
    (evs : List Event) (st2 : CommentState)
    (h : commentPostChecked cst req bytes name = (.ok c evs, st2)) :
    c.groupIds = resolveGroupIds cst.accessibleGroupIds
      (match req.groupIds with
       | some (g :: gs) => g :: gs
       | _ => cst.accessibleGroupIds) := by
  simp only [commentPostChecked] at h
  split at h
  · simp at h
  · split at h
    · simp at h
    · split at h
      · simp at h
      · simp at h
      · split at h
        · simp at h
        · rw [Prod.mk.injEq] at h
          obtain ⟨h1, -⟩ := h
          injection h1 with hc hevs
          rw [← hc]

theorem classificationPost_ok_groups (st : ClsState) (req : ClsPostRequest)
    (c : ClsRec) (evs : List Event) (st2 : ClsState)
    (h : classificationPost st req = (.ok c evs, st2)) :
    c.groupIds = resolveGroupIds st.accessibleGroupIds
      (req.groupIds.getD st.accessibleGroupIds) := by
  simp only [classificationPost] at h
  split at h
  · simp at h
  · split at h
    · simp at h
    · split at h
      · simp at h
      · split at h
        · simp at h
        · split at h
          · simp at h
          · rw [Prod.mk.injEq] at h
            obtain ⟨h1, -⟩ := h
            injection h1 with hc hevs
            rw [← hc]

/-- Claim C10: comment creation treats an explicit empty `group_ids` list
exactly like an absent one, substituting every caller-accessible group, while
classification creation keeps the empty list and creates a classification
visible to no group. -/
theorem c10_empty_group_ids (st : ClsState) (cst : CommentState)
    (clsReq : ClsPostRequest) (preq : CommentPostRequest)
    (hc : clsReq.groupIds = some [])
    (hp : preq.groupIds = some []) :
    commentPost cst preq = commentPost cst { preq with groupIds := none } ∧
    (∀ c evs st2, commentPost cst preq = (.ok c evs, st2) →
      c.groupIds = cst.accessibleGroupIds) ∧
    (∀ c evs st2, classificationPost st clsReq = (.ok c evs, st2) →
      c.groupIds = []) := by
  have hchk : ∀ bytes name, commentPostChecked cst preq bytes name
      = commentPostChecked cst { preq with groupIds := none } bytes name := by
    intro bytes name
    simp only [commentPostChecked, hp]
    rfl
  refine ⟨?_, ?_, ?_⟩
  · cases hatt : preq.attachment with
    | none => simp only [commentPost, hatt, hchk]
    | some att =>
      cases hb : att.body <;> cases hn : att.name <;>
        simp only [commentPost, hatt, hb, hn, hchk]
  · intro c evs st2 hok
    have hg : c.groupIds = resolveGroupIds cst.accessibleGroupIds
        (match preq.groupIds with
         | some (g :: gs) => g :: gs
         | _ => cst.accessibleGroupIds) := by
      cases hatt : preq.attachment with
      | none =>
        simp only [commentPost, hatt] at hok
        exact commentPostChecked_ok_groups _ _ _ _ _ _ _ hok
      | some att =>
        cases hb : att.body <;> cases hn : att.name <;>
          simp only [commentPost, hatt, hb, hn] at hok
        · simp at hok
        · simp at hok
        · simp at hok
        · exact commentPostChecked_ok_groups _ _ _ _ _ _ _ hok
    rw [hp] at hg
    simpa [resolveGroupIds_self] using hg
  · intro c evs st2 hok
    have hg := classificationPost_ok_groups st clsReq c evs st2 hok
    rw [hc] at hg
    simpa [resolveGroupIds_nil] using hg

/-- Claim C10 witness: with only group 1 accessible, a comment created with
`group_ids: []` ends up visible to group 1, while a classification created
with `group_ids: []` ends up with an empty group set — both succeed. -/
theorem c10_empty_group_ids_witness :
    c6NewComment.groupIds = c6State.accessibleGroupIds ∧
    c10Cls.groupIds = [] := by
  refine ⟨?_, ?_⟩
  · exact (c10_empty_group_ids clsState0 c6State c10ClsReq c10PostReq rfl
      rfl).2.1 c6NewComment [.refreshSource "key1"] c6PostedState (by decide)
  · exact (c10_empty_group_ids clsState0 c6State c10ClsReq c10PostReq rfl
      rfl).2.2 c10Cls [.refreshSource "key1", .refreshCandidate "key1"]
      c10ClsState rfl

theorem commentResourceIdStr_text (c : CommentRec) (t : String) :
    commentResourceIdStr { c with text := t } = commentResourceIdStr c := by
  cases hck : c.kind <;> simp [commentResourceIdStr, hck]

/-- Claim C8: an existing comment, visible in every access mode, whose own
parent-resource id string differs from the path `resource_id`, makes the
single-comment GET, a text-only PUT, the DELETE and the attachment GET all
fail with the resource-mismatch InvalidInput error, with the state — and
hence the comment — unchanged by the mutations. -/
theorem c8_resource_id_crosscheck (st : CommentState) (c : CommentRec)
    (rt rid : String) (k : ResourceKind) (t : String)
    (hk : parseResourceType rt = some k)
    (hmis : commentResourceIdStr c ≠ rid)
    (hget : findComment st k c.id st.readableIds = some c)
    (hupd : findComment st k c.id st.updatableIds = some c)
    (hdel : findComment st k c.id st.deletableIds = some c)
    (hinv : c.attachment_bytes.isNone = c.attachment_name.isNone)
    (v : Option String × Option String)
    (hkeys : deleteKeyCapture st c = .ok v)
    (dl : Option String) :
    commentGetSingle st rt rid c.id = .err resourceMismatchMsg ∧
    commentPut st
      { resourceType := rt, resourceId := rid, commentId := c.id,
        text := some t, attachmentNameField := none, attachment_bytes := none,
        groupIds := none } = (.err resourceMismatchMsg, st) ∧
    commentDelete st rt rid c.id = (.err resourceMismatchMsg, st) ∧
    commentAttachmentGet st rt rid c.id dl = .err resourceMismatchMsg := by
  refine ⟨?_, ?_, ?_, ?_⟩
  · simp [commentGetSingle, hk, hget, hmis]
  · have happ : applyPutFields
        { resourceType := rt, resourceId := rid,
          commentId := c.id, text := some t, attachmentNameField := none,
          attachment_bytes := none, groupIds := none } c
        = { c with text := t } := rfl
    simp only [commentPut, hk, hupd, happ]
    have hxor : ¬(({ c with text := t } : CommentRec).attachment_bytes.isNone
        ≠ ({ c with text := t } : CommentRec).attachment_name.isNone) := by
      simp [hinv]
    simp only [if_neg hxor]
    simp only [finishPut, commentResourceIdStr_text]
    simp [hmis]
  · simp only [commentDelete, hk, hdel, hkeys]
    cases v with
    | mk objKey dateobs => simp [hmis]
  · simp [commentAttachmentGet, hk, hget, hmis]

/-- Claim C8 witness: a visible source comment on object `objA` addressed
through the path resource id `objB` is rejected by all four operations with
the mismatch error and the state unchanged. -/
theorem c8_resource_id_crosscheck_witness :
    commentGetSingle c8State "sources" "objB" 31 = .err resourceMismatchMsg ∧
    commentPut c8State
      { resourceType := "sources", resourceId := "objB",
        commentId := 31, text := some "new", attachmentNameField := none,
        attachment_bytes := none, groupIds := none }
      = (.err resourceMismatchMsg, c8State) ∧
    commentDelete c8State "sources" "objB" 31
      = (.err resourceMismatchMsg, c8State) ∧
    commentAttachmentGet c8State "sources" "objB" 31 none
      = .err resourceMismatchMsg :=
  c8_resource_id_crosscheck c8State c8Comment "sources" "objB" .sources "new"
    rfl (by decide) (by decide) (by decide) (by decide) (by decide)
    (some "keyA", none) rfl none

end Skyportal
